import Mathlib

/-!
Verification of the NetCalc command-line option processor
(`src/C/option_handler/src/option_handler.c` and its header).

The C code is shallowly embedded as pure Lean functions:

* `options_t` mirrors the C struct of the same name; the C `char * p_value`
  is modelled as a `String` (the all-zero initial struct has `p_value ""`,
  standing for the NULL pointer of the zero-initialised C record).
* `process_n_option` / `process_p_option` are direct translations of the two
  static handlers.  The C `int` result together with the in-place mutation of
  the struct and the `print_error` calls to `stderr` become an explicit
  `HandlerOut` record; each element of the `err` list is the payload of one
  diagnostic write, in order.
* The `getopt (argc, argv, "n:p:h")` loop of `process_options` is modelled by
  `scanLoop`, which walks the tokens after the program name exactly as glibc
  `getopt` presents them to the `switch`: an option token `-c...` yields its
  first character (in this program a value option always consumes the rest of
  its token or the following token, `h` and unknown characters abort the loop,
  so no token ever contributes a second option character); tokens that do not
  look like options are skipped and — thanks to glibc's argument permutation —
  end up after the consumed option tokens, where `report_extra_arguments`
  lists them; `--` stops the scan.  The running `exit_code` of the C loop and
  the count of consumed option tokens (the final value of the `optind`
  cursor relative to where scanning started) are threaded explicitly.
* `process_options_from start argv opts` is `process_options` run with the
  global getopt cursor `optind` equal to `start`; the C global is made an
  explicit argument/result so that successive invocations (which in C share
  the global) can be reasoned about.  `process_options argv opts` is the
  first call of a fresh process, where glibc initialises `optind = 1`.
  The `argv == NULL || *argv == NULL` check of the C code corresponds to the
  empty token list (pointers are not representable for a `List String`).
  glibc's own diagnostics (`opterr` output) and the bare newline writes are
  not modelled; every `print_error`/`fprintf` payload of the repository's own
  code is.

Collaborators that the repository uses but whose sources are not under
`src/` (`number_converter.h`'s `str_to_int32`, `utilities.h`'s
`E_SUCCESS`/`E_FAILURE`/`print_error`) are modelled from the spec; their
definitions say so in their doc comments.
-/

/-- Modelled from the spec: `utilities.h` is not under `src/`. `E_SUCCESS` is
the success result of the repository's functions; only its being distinct
from `E_FAILURE` matters (the conventional values are 0 and -1). -/
def E_SUCCESS : Int := 0

/-- Modelled from the spec: `utilities.h` is not under `src/`. `E_FAILURE` is
the generic failure result. -/
def E_FAILURE : Int := -1

/-- `MIN_NUM_THREADS` from option_handler.c line 21. -/
def MIN_NUM_THREADS : Int := 2

/-- `MAX_PORT_VALUE` from option_handler.c line 22. -/
def MAX_PORT_VALUE : Int := 65535

/-- `MIN_PORT_VALUE` from option_handler.c line 23. -/
def MIN_PORT_VALUE : Int := 1025

/-- `MAX_PORT_SIZE` from option_handler.h line 14. -/
def MAX_PORT_SIZE : Nat := 6

/-- The `options_t` struct of option_handler.h. -/
structure options_t where
  n_flag : Bool
  n_value : Int
  p_flag : Bool
  p_value : String
deriving DecidableEq, Repr

/-- The zero-initialised `options_t` record handed to `process_options` by a
fresh caller (all flags false, numeric field 0, port string unset). -/
def initOptions : options_t := ⟨false, 0, false, ""⟩

/-- `strnlen(s, n)` of the C library: the length of `s` capped at `n`. -/
def strnlen (s : String) (n : Nat) : Nat := min s.length n

/-- Value of a digit list read in base 10. -/
def digitsToNat (ds : List Char) : Nat :=
  ds.foldl (fun a c => 10 * a + (c.toNat - '0'.toNat)) 0

/-- The integer denoted by a decimal numeral: an optional sign followed by at
least one digit.  This is the mathematical reading of "the string represents
the integer k" used by the spec's testable properties. -/
def decimalValue (s : String) : Option Int :=
  match s.data with
  | '+' :: ds =>
    if ds ≠ [] ∧ ds.all Char.isDigit then some (Int.ofNat (digitsToNat ds)) else none
  | '-' :: ds =>
    if ds ≠ [] ∧ ds.all Char.isDigit then some (-(Int.ofNat (digitsToNat ds))) else none
  | ds =>
    if ds ≠ [] ∧ ds.all Char.isDigit then some (Int.ofNat (digitsToNat ds)) else none

/-- Modelled from the spec: `number_converter.h`'s `str_to_int32` is not under
`src/`.  Per §6, `NumericParser.parseInt32(text)` "fails when `text` is
empty, non-numeric, or exceeds 32-bit signed range"; C2's discussion shows
leading zeros and plus signs are numerically accepted.  The C out-parameter
plus `E_SUCCESS`/`E_FAILURE` result is modelled as an `Option Int`. -/
def str_to_int32 (s : String) : Option Int :=
  match decimalValue s with
  | some v => if -(2 ^ 31) ≤ v ∧ v ≤ 2 ^ 31 - 1 then some v else none
  | none => none

/-- Result of one option handler: the C `int` return value, the (possibly
updated) `options_t`, and the `print_error` payloads written to stderr. -/
structure HandlerOut where
  exit : Int
  opts : options_t
  err : List String
deriving DecidableEq, Repr

/-- `process_n_option` of option_handler.c lines 180-221 (the NULL-pointer
guard has no counterpart for Lean values). -/
def process_n_option (optarg : String) (opts : options_t) : HandlerOut :=
  if opts.n_flag then
    ⟨E_FAILURE, opts, ["process_options(): '-n' flag already true."]⟩
  else
    match str_to_int32 optarg with
    | none => ⟨E_FAILURE, opts, ["Unable to convert 'n_value' to number."]⟩
    | some v =>
      if v < MIN_NUM_THREADS then
        ⟨E_FAILURE, opts, ["process_options(): Number of threads must be 2 or more."]⟩
      else
        ⟨E_SUCCESS, { opts with n_flag := true, n_value := v }, []⟩

/-- `process_p_option` of option_handler.c lines 223-273. -/
def process_p_option (optarg : String) (opts : options_t) : HandlerOut :=
  if opts.p_flag then
    ⟨E_FAILURE, opts, ["process_p_option(): '-p' flag already true."]⟩
  else
    match str_to_int32 optarg with
    | none =>
      ⟨E_FAILURE, opts, ["process_p_option(): Unable to convert 'p_value' to number."]⟩
    | some v =>
      if MAX_PORT_VALUE < v ∨ v < MIN_PORT_VALUE then
        ⟨E_FAILURE, opts, ["process_p_option(): Port number out of range."]⟩
      else if MAX_PORT_SIZE < strnlen optarg MAX_PORT_SIZE then
        ⟨E_FAILURE, opts, ["process_p_option(): Port string is too long."]⟩
      else
        ⟨E_SUCCESS, { opts with p_flag := true, p_value := optarg }, []⟩

/-- Outcome of the `while (getopt...)` loop of `process_options`:
either a `goto END` taken from inside the loop (`exited`, carrying the
running `exit_code`, the struct, the stderr writes so far and the number of
option tokens consumed), or getopt returning -1 (`finished`, additionally
carrying the skipped non-option tokens that glibc permuted to the back). -/
inductive LoopOut where
  | exited (ec : Int) (opts : options_t) (err : List String) (used : Nat)
  | finished (opts : options_t) (skipped : List String) (err : List String) (used : Nat)
deriving DecidableEq, Repr

/-- How getopt decodes one argument-vector token against the option string
`"n:p:h"`.  In this program a token contributes at most one option character
to the `switch` of `process_options`: the value options `n`/`p` consume the
rest of their token (or the following token) as `optarg`, while `h` and any
unrecognised character make `process_options` leave the loop. -/
inductive TokKind where
  | ddash
  | help (lastInCluster : Bool)
  | nOpt (attached : Option String)
  | pOpt (attached : Option String)
  | unknown (c : Char) (lastInCluster : Bool)
  | nonOption
deriving DecidableEq, Repr

/-- Decode one token the way `getopt(argc, argv, "n:p:h")` does: `--` ends
option scanning; `-` followed by an option character starts a cluster whose
first character is dispatched (with the rest of the cluster as the attached
value for `n`/`p`); everything else is a non-option token that glibc's
permutation moves behind the options.  `lastInCluster` records whether glibc
has already advanced `optind` past the token when the character is returned
(it has exactly when the cluster contains a single character). -/
def classifyTok (t : String) : TokKind :=
  if t = "--" then .ddash
  else
    match t.data with
    | '-' :: 'h' :: cs => .help cs.isEmpty
    | '-' :: 'n' :: c :: cs => .nOpt (some (String.mk (c :: cs)))
    | ['-', 'n'] => .nOpt none
    | '-' :: 'p' :: c :: cs => .pOpt (some (String.mk (c :: cs)))
    | ['-', 'p'] => .pOpt none
    | '-' :: c :: cs => .unknown c cs.isEmpty
    | _ => .nonOption

/-- The getopt loop of `process_options` (option_handler.c lines 121-158)
over the tokens not yet scanned.  Arguments: remaining tokens, non-option
tokens skipped so far, the `options_t`, stderr writes so far, the running
`exit_code` (initially `E_FAILURE`), and option tokens consumed so far. -/
def scanLoop : List String → List String → options_t → List String → Int → Nat → LoopOut
  | [], sk, o, e, _, u => .finished o sk e u
  | t :: rest, sk, o, e, ec, u =>
    match classifyTok t with
    | .ddash => .finished o (sk ++ rest) e (u + 1)
    | .help last => .exited ec o e (if last then u + 1 else u)
    | .nOpt (some v) =>
      let r := process_n_option v o
      if r.exit = E_SUCCESS then
        scanLoop rest sk r.opts (e ++ r.err) E_SUCCESS (u + 1)
      else
        .exited r.exit r.opts (e ++ r.err ++ ["Unable to process 'n' option."]) (u + 1)
    | .nOpt none =>
      match rest with
      | [] =>
        .exited E_FAILURE o (e ++ ["Option '-n' requires an argument."]) (u + 1)
      | v :: rest' =>
        let r := process_n_option v o
        if r.exit = E_SUCCESS then
          scanLoop rest' sk r.opts (e ++ r.err) E_SUCCESS (u + 2)
        else
          .exited r.exit r.opts (e ++ r.err ++ ["Unable to process 'n' option."]) (u + 2)
    | .pOpt (some v) =>
      let r := process_p_option v o
      if r.exit = E_SUCCESS then
        scanLoop rest sk r.opts (e ++ r.err) E_SUCCESS (u + 1)
      else
        .exited r.exit r.opts (e ++ r.err ++ ["Unable to process 'p' option."]) (u + 1)
    | .pOpt none =>
      match rest with
      | [] =>
        .exited E_FAILURE o (e ++ ["Option '-p' requires an argument."]) (u + 1)
      | v :: rest' =>
        let r := process_p_option v o
        if r.exit = E_SUCCESS then
          scanLoop rest' sk r.opts (e ++ r.err) E_SUCCESS (u + 2)
        else
          .exited r.exit r.opts (e ++ r.err ++ ["Unable to process 'p' option."]) (u + 2)
    | .unknown c last =>
      .exited E_FAILURE o
        (e ++ ["Unknown option '-" ++ String.mk [c] ++ "'."])
        (if last then u + 1 else u)
    | .nonOption => scanLoop rest (sk ++ [t]) o e ec u

/-- Observable outcome of `process_options`: the returned `int`, the final
struct, the stderr write payloads, whether the help menu was rendered to
stdout at `END`, and the final value of the getopt cursor `optind`. -/
structure PResult where
  exit : Int
  opts : options_t
  err : List String
  helpPrinted : Bool
  optindEnd : Nat
deriving DecidableEq, Repr

/-- The `END` label of `process_options` (lines 168-173): the help menu is
rendered exactly when the exit code is `E_FAILURE`. -/
def mkEnd (ec : Int) (o : options_t) (e : List String) (u : Nat) : PResult :=
  ⟨ec, o, e, decide (ec = E_FAILURE), u⟩

/-- `process_options` of option_handler.c lines 105-174, with the global
getopt cursor `optind` made the explicit argument `start` (and returned in
`optindEnd`).  Covers the NULL-vector guard, the scan loop,
`report_extra_arguments` (lines 287-311) and the `END` label. -/
def process_options_from (start : Nat) (argv : List String) (opts : options_t) : PResult :=
  if argv.isEmpty then
    mkEnd E_FAILURE opts ["process_options(): NULL argument passed."] start
  else
    match scanLoop (argv.drop start) [] opts [] E_FAILURE 0 with
    | .exited ec o e u => mkEnd ec o e (start + u)
    | .finished o sk e u =>
      if sk.isEmpty then
        mkEnd E_SUCCESS o e (start + u)
      else
        mkEnd E_FAILURE o
          ((e ++ ("Invalid arguments encountered: " :: sk)) ++ ["Invalid arguments passed."])
          (start + u)

/-- `process_options` as called by a fresh process: glibc initialises the
getopt cursor `optind` to 1. -/
def process_options (argv : List String) (opts : options_t) : PResult :=
  process_options_from 1 argv opts

example : process_options ["netcalc", "-n", "4", "-h"] initOptions =
    ⟨E_SUCCESS, ⟨true, 4, false, ""⟩, [], false, 4⟩ := by decide

example : process_options ["netcalc", "-h"] initOptions =
    ⟨E_FAILURE, initOptions, [], true, 2⟩ := by decide

example : process_options ["netcalc", "-p", "8080", "extra"] initOptions =
    ⟨E_FAILURE, ⟨false, 0, true, "8080"⟩,
      ["Invalid arguments encountered: ", "extra", "Invalid arguments passed."],
      true, 3⟩ := by decide

-- ===== helper lemmas =====

lemma str_to_int32_of_decimalValue {s : String} {k : Int}
    (hk : decimalValue s = some k) (hlo : -(2 ^ 31) ≤ k) (hhi : k ≤ 2 ^ 31 - 1) :
    str_to_int32 s = some k := by
  unfold str_to_int32
  rw [hk]
  show (if -(2 ^ 31) ≤ k ∧ k ≤ 2 ^ 31 - 1 then some k else none) = some k
  rw [if_pos (⟨hlo, hhi⟩ : -(2 ^ 31) ≤ k ∧ k ≤ 2 ^ 31 - 1)]

lemma process_n_option_exit (v : String) (o : options_t) :
    (process_n_option v o).exit = E_SUCCESS ∨ (process_n_option v o).exit = E_FAILURE := by
  unfold process_n_option
  split
  · exact Or.inr rfl
  · split
    · exact Or.inr rfl
    · split
      · exact Or.inr rfl
      · exact Or.inl rfl

lemma process_p_option_exit (v : String) (o : options_t) :
    (process_p_option v o).exit = E_SUCCESS ∨ (process_p_option v o).exit = E_FAILURE := by
  unfold process_p_option
  split
  · exact Or.inr rfl
  · split
    · exact Or.inr rfl
    · split
      · exact Or.inr rfl
      · split
        · exact Or.inr rfl
        · exact Or.inl rfl

lemma process_n_option_dup {o : options_t} (h : o.n_flag = true) (v : String) :
    process_n_option v o = ⟨E_FAILURE, o, ["process_options(): '-n' flag already true."]⟩ := by
  unfold process_n_option
  rw [h]
  simp

lemma process_p_option_dup {o : options_t} (h : o.p_flag = true) (v : String) :
    process_p_option v o = ⟨E_FAILURE, o, ["process_p_option(): '-p' flag already true."]⟩ := by
  unfold process_p_option
  rw [h]
  simp

/-- One unfolding of the scan loop on a non-empty token list, with the token
dispatch written over `classifyTok t` (a restatement of the definition's
equations that does not depend on the shape of `rest`). -/
lemma scanLoop_cons (t : String) (rest sk : List String) (o : options_t) (e : List String)
    (ec : Int) (u : Nat) :
    scanLoop (t :: rest) sk o e ec u =
      match classifyTok t with
      | .ddash => .finished o (sk ++ rest) e (u + 1)
      | .help last => .exited ec o e (if last then u + 1 else u)
      | .nOpt (some v) =>
        let r := process_n_option v o
        if r.exit = E_SUCCESS then
          scanLoop rest sk r.opts (e ++ r.err) E_SUCCESS (u + 1)
        else
          .exited r.exit r.opts (e ++ r.err ++ ["Unable to process 'n' option."]) (u + 1)
      | .nOpt none =>
        match rest with
        | [] =>
          .exited E_FAILURE o (e ++ ["Option '-n' requires an argument."]) (u + 1)
        | v :: rest' =>
          let r := process_n_option v o
          if r.exit = E_SUCCESS then
            scanLoop rest' sk r.opts (e ++ r.err) E_SUCCESS (u + 2)
          else
            .exited r.exit r.opts (e ++ r.err ++ ["Unable to process 'n' option."]) (u + 2)
      | .pOpt (some v) =>
        let r := process_p_option v o
        if r.exit = E_SUCCESS then
          scanLoop rest sk r.opts (e ++ r.err) E_SUCCESS (u + 1)
        else
          .exited r.exit r.opts (e ++ r.err ++ ["Unable to process 'p' option."]) (u + 1)
      | .pOpt none =>
        match rest with
        | [] =>
          .exited E_FAILURE o (e ++ ["Option '-p' requires an argument."]) (u + 1)
        | v :: rest' =>
          let r := process_p_option v o
          if r.exit = E_SUCCESS then
            scanLoop rest' sk r.opts (e ++ r.err) E_SUCCESS (u + 2)
          else
            .exited r.exit r.opts (e ++ r.err ++ ["Unable to process 'p' option."]) (u + 2)
      | .unknown c last =>
        .exited E_FAILURE o
          (e ++ ["Unknown option '-" ++ String.mk [c] ++ "'."])
          (if last then u + 1 else u)
      | .nonOption => scanLoop rest (sk ++ [t]) o e ec u := by
  cases rest with
  | nil => rw [scanLoop.eq_2]
  | cons w rest' => rw [scanLoop.eq_3]

lemma scanLoop_exit_code :
    ∀ ts sk o e ec u, (ec = E_SUCCESS ∨ ec = E_FAILURE) →
    ∀ ec' o' e' u', scanLoop ts sk o e ec u = LoopOut.exited ec' o' e' u' →
    ec' = E_SUCCESS ∨ ec' = E_FAILURE := by
  intro ts sk o e ec u
  induction ts, sk, o, e, ec, u using scanLoop.induct with
  | case1 sk o e x u =>
    intro _ _ _ _ _ h
    rw [scanLoop.eq_1] at h
    exact LoopOut.noConfusion h
  | case2 t rest sk o e ec u ht =>
    intro _ _ _ _ _ h
    rw [scanLoop_cons, ht] at h
    exact LoopOut.noConfusion h
  | case3 t rest sk o e ec u last ht =>
    intro hec ec' o' e' u' h
    rw [scanLoop_cons, ht] at h
    injection h with h1 h2 h3 h4
    exact h1 ▸ hec
  | case4 t rest sk o e ec u v ht r hs ih =>
    intro _ ec' o' e' u' h
    have hs2 : (process_n_option v o).exit = E_SUCCESS := hs
    rw [scanLoop_cons] at h
    simp only [ht] at h
    rw [if_pos hs2] at h
    exact ih (Or.inl rfl) ec' o' e' u' h
  | case5 t rest sk o e ec u v ht r hf =>
    intro _ ec' o' e' u' h
    have hf2 : ¬ (process_n_option v o).exit = E_SUCCESS := hf
    rw [scanLoop_cons] at h
    simp only [ht] at h
    rw [if_neg hf2] at h
    injection h with h1 h2 h3 h4
    have h1b : (process_n_option v o).exit = ec' := h1
    rcases process_n_option_exit v o with hS | hF
    · exact absurd hS hf2
    · exact Or.inr (h1b ▸ hF)
  | case6 t sk o e ec u ht =>
    intro _ ec' o' e' u' h
    rw [scanLoop_cons, ht] at h
    injection h with h1 h2 h3 h4
    exact Or.inr h1.symm
  | case7 t sk o e ec u ht v rest' r hs ih =>
    intro _ ec' o' e' u' h
    have hs2 : (process_n_option v o).exit = E_SUCCESS := hs
    rw [scanLoop_cons] at h
    simp only [ht] at h
    rw [if_pos hs2] at h
    exact ih (Or.inl rfl) ec' o' e' u' h
  | case8 t sk o e ec u ht v rest' r hf =>
    intro _ ec' o' e' u' h
    have hf2 : ¬ (process_n_option v o).exit = E_SUCCESS := hf
    rw [scanLoop_cons] at h
    simp only [ht] at h
    rw [if_neg hf2] at h
    injection h with h1 h2 h3 h4
    have h1b : (process_n_option v o).exit = ec' := h1
    rcases process_n_option_exit v o with hS | hF
    · exact absurd hS hf2
    · exact Or.inr (h1b ▸ hF)
  | case9 t rest sk o e ec u v ht r hs ih =>
    intro _ ec' o' e' u' h
    have hs2 : (process_p_option v o).exit = E_SUCCESS := hs
    rw [scanLoop_cons] at h
    simp only [ht] at h
    rw [if_pos hs2] at h
    exact ih (Or.inl rfl) ec' o' e' u' h
  | case10 t rest sk o e ec u v ht r hf =>
    intro _ ec' o' e' u' h
    have hf2 : ¬ (process_p_option v o).exit = E_SUCCESS := hf
    rw [scanLoop_cons] at h
    simp only [ht] at h
    rw [if_neg hf2] at h
    injection h with h1 h2 h3 h4
    have h1b : (process_p_option v o).exit = ec' := h1
    rcases process_p_option_exit v o with hS | hF
    · exact absurd hS hf2
    · exact Or.inr (h1b ▸ hF)
  | case11 t sk o e ec u ht =>
    intro _ ec' o' e' u' h
    rw [scanLoop_cons, ht] at h
    injection h with h1 h2 h3 h4
    exact Or.inr h1.symm
  | case12 t sk o e ec u ht v rest' r hs ih =>
    intro _ ec' o' e' u' h
    have hs2 : (process_p_option v o).exit = E_SUCCESS := hs
    rw [scanLoop_cons] at h
    simp only [ht] at h
    rw [if_pos hs2] at h
    exact ih (Or.inl rfl) ec' o' e' u' h
  | case13 t sk o e ec u ht v rest' r hf =>
    intro _ ec' o' e' u' h
    have hf2 : ¬ (process_p_option v o).exit = E_SUCCESS := hf
    rw [scanLoop_cons] at h
    simp only [ht] at h
    rw [if_neg hf2] at h
    injection h with h1 h2 h3 h4
    have h1b : (process_p_option v o).exit = ec' := h1
    rcases process_p_option_exit v o with hS | hF
    · exact absurd hS hf2
    · exact Or.inr (h1b ▸ hF)
  | case14 t rest sk o e ec u c last ht =>
    intro _ ec' o' e' u' h
    rw [scanLoop_cons, ht] at h
    injection h with h1 h2 h3 h4
    exact Or.inr h1.symm
  | case15 t rest sk o e ec u ht ih =>
    intro hec ec' o' e' u' h
    rw [scanLoop_cons, ht] at h
    exact ih hec ec' o' e' u' h

lemma process_options_from_exit (start : Nat) (argv : List String) (opts : options_t) :
    (process_options_from start argv opts).exit = E_SUCCESS ∨
    (process_options_from start argv opts).exit = E_FAILURE := by
  unfold process_options_from
  split
  · exact Or.inr rfl
  · split
    · next ec o2 e u heq =>
      exact scanLoop_exit_code _ _ _ _ _ _ (Or.inr rfl) _ _ _ _ heq
    · next o2 sk e u heq =>
      split
      · exact Or.inl rfl
      · exact Or.inr rfl

lemma process_options_from_helpPrinted (start : Nat) (argv : List String) (opts : options_t) :
    (process_options_from start argv opts).helpPrinted =
      decide ((process_options_from start argv opts).exit = E_FAILURE) := by
  unfold process_options_from
  split
  · rfl
  · split
    · rfl
    · split <;> rfl

-- ===== claim theorems =====

/-- Claim C1: the claim states that `-h` anywhere in the arguments always
results in help display and a non-success result.  The code disagrees: after
a valid `-n 4`, the running exit code is already `E_SUCCESS`, and `case 'h'`
jumps to `END` without forcing `E_FAILURE`, so `netcalc -n 4 -h` returns
success and prints no help; with `-h` first the intended behaviour occurs. -/
theorem C1_help_after_valid_option_evaluation :
    (process_options ["netcalc", "-n", "4", "-h"] initOptions).exit = E_SUCCESS ∧
    (process_options ["netcalc", "-n", "4", "-h"] initOptions).helpPrinted = false ∧
    (process_options ["netcalc", "-h"] initOptions).exit = E_FAILURE ∧
    (process_options ["netcalc", "-h"] initOptions).helpPrinted = true := by
  decide

/-- Claim C2: the claim states that a `-p` value longer than 5 characters
fails with ValueTooLong even when its numeric value is in range.  The code
disagrees: `strnlen(optarg, 6)` never exceeds 6, so the `6 <` comparison is
never true and the 6-character value `001025` (numerically 1025) is accepted
and stored verbatim. -/
theorem C2_six_char_port_value_accepted :
    "001025".length = 6 ∧
    decimalValue "001025" = some 1025 ∧
    process_p_option "001025" initOptions =
      ⟨E_SUCCESS, ⟨false, 0, true, "001025"⟩, []⟩ := by
  decide

/-- Claim C3, counterexample: two successive invocations of
`process_options` on `netcalc -n 4` are not field-for-field identical,
because the getopt cursor `optind` (a process-wide global, here the explicit
`start`/`optindEnd` state) persists: the first call ends with the cursor at
3, so the second call scans nothing and leaves the fresh record empty. -/
theorem C3_counterexample_repeat_invocation :
    (process_options_from 1 ["netcalc", "-n", "4"] initOptions).exit = E_SUCCESS ∧
    (process_options_from 1 ["netcalc", "-n", "4"] initOptions).optindEnd = 3 ∧
    (process_options_from 1 ["netcalc", "-n", "4"] initOptions).opts.n_flag = true ∧
    (process_options_from 3 ["netcalc", "-n", "4"] initOptions).exit = E_SUCCESS ∧
    (process_options_from 3 ["netcalc", "-n", "4"] initOptions).opts.n_flag = false ∧
    (process_options_from 1 ["netcalc", "-n", "4"] initOptions).opts ≠
      (process_options_from 3 ["netcalc", "-n", "4"] initOptions).opts := by
  decide

/-- Claim C3, amended: successive invocations are identical only if the
getopt cursor is reset between calls; if the cursor persists after a first
invocation that scanned the whole vector (cursor = argc), the second
invocation scans no tokens and returns success with its record untouched
and no output, rather than reproducing the first invocation's record. -/
theorem C3_amended_cursor_reset (argv : List String) (opts : options_t) (h : argv ≠ []) :
    process_options_from argv.length argv opts =
      ⟨E_SUCCESS, opts, [], false, argv.length⟩ := by
  cases argv with
  | nil => exact absurd rfl h
  | cons a as =>
    unfold process_options_from
    simp only [List.isEmpty_cons, Bool.false_eq_true, if_false, List.drop_length,
      scanLoop.eq_1, List.isEmpty_nil, if_true, mkEnd, E_SUCCESS, E_FAILURE]
    norm_num

theorem C3_amended_cursor_reset_witness :
    process_options_from (["netcalc", "-n", "4"].length) ["netcalc", "-n", "4"] initOptions =
      ⟨E_SUCCESS, initOptions, [], false, ["netcalc", "-n", "4"].length⟩ :=
  C3_amended_cursor_reset ["netcalc", "-n", "4"] initOptions (by decide)

/-- Claim C4, counterexample: on `netcalc -n 4 -x` the parse fails (unknown
option), yet the caller's record has already been mutated by the successful
`-n 4`: the returned record differs from the initial one, so state is not
unchanged on error. -/
theorem C4_counterexample_partial_record :
    (process_options ["netcalc", "-n", "4", "-x"] initOptions).exit = E_FAILURE ∧
    (process_options ["netcalc", "-n", "4", "-x"] initOptions).opts.n_flag = true ∧
    (process_options ["netcalc", "-n", "4", "-x"] initOptions).opts ≠ initOptions := by
  decide

/-- Claim C4, amended: whenever `process_options` does not succeed it
returns `E_FAILURE` and renders the help menu, so the caller is always told
not to consume the record; the record itself may retain fields stored by
options processed before the failing token (it is not rolled back). -/
theorem C4_amended_failure_signalled (start : Nat) (argv : List String) (opts : options_t)
    (h : (process_options_from start argv opts).exit ≠ E_SUCCESS) :
    (process_options_from start argv opts).exit = E_FAILURE ∧
    (process_options_from start argv opts).helpPrinted = true := by
  have hE : (process_options_from start argv opts).exit = E_FAILURE :=
    (process_options_from_exit start argv opts).resolve_left h
  refine ⟨hE, ?_⟩
  rw [process_options_from_helpPrinted, hE]
  decide

theorem C4_amended_failure_signalled_witness :
    (process_options ["netcalc", "-x"] initOptions).exit = E_FAILURE ∧
    (process_options ["netcalc", "-x"] initOptions).helpPrinted = true :=
  C4_amended_failure_signalled 1 ["netcalc", "-x"] initOptions (by decide)

/-- Claim C5, counterexample: the string `2147483648` denotes an integer
that is at least 2, yet `-n` processing fails (the numeric converter
rejects values beyond the 32-bit signed range), against the claim that
every decimal string denoting an integer at least 2 succeeds. -/
theorem C5_counterexample_overflow :
    decimalValue "2147483648" = some 2147483648 ∧
    (2 : Int) ≤ 2147483648 ∧
    (process_n_option "2147483648" initOptions).exit = E_FAILURE ∧
    (process_n_option "2147483648" initOptions).err =
      ["Unable to convert 'n_value' to number."] := by
  decide

/-- Claim C5, amended: for decimal strings denoting an integer within the
signed 32-bit range, `-n` processing (with the flag not yet set) succeeds
for values at least 2, marking the option set and storing exactly the
denoted integer, and fails with the out-of-range diagnostic for values
below 2; strings denoting integers beyond the 32-bit range are instead
rejected by the numeric conversion. -/
theorem C5_amended_thread_count (s : String) (k : Int) (opts : options_t)
    (hflag : opts.n_flag = false)
    (hk : decimalValue s = some k)
    (hlo : -(2 ^ 31) ≤ k) (hhi : k ≤ 2 ^ 31 - 1) :
    (2 ≤ k → process_n_option s opts =
      ⟨E_SUCCESS, { opts with n_flag := true, n_value := k }, []⟩) ∧
    (k < 2 → process_n_option s opts =
      ⟨E_FAILURE, opts, ["process_options(): Number of threads must be 2 or more."]⟩) := by
  have hs := str_to_int32_of_decimalValue hk hlo hhi
  simp only [process_n_option, hflag, Bool.false_eq_true, if_false, hs, MIN_NUM_THREADS]
  constructor
  · intro h2
    rw [if_neg (by omega : ¬ (k < (2 : Int)))]
  · intro h2
    rw [if_pos (by omega : k < (2 : Int))]

theorem C5_amended_thread_count_witness :
    process_n_option "4" initOptions =
      ⟨E_SUCCESS, { initOptions with n_flag := true, n_value := 4 }, []⟩ :=
  (C5_amended_thread_count "4" 4 initOptions rfl (by decide) (by decide) (by decide)).1
    (by decide)

/-- Claim C6, counterexample: the string `9999999999` denotes an integer
outside [1025, 65535], yet `-p` processing does not fail with the
out-of-range diagnostic: the numeric converter rejects it first (beyond the
32-bit signed range) with the conversion diagnostic. -/
theorem C6_counterexample_overflow :
    decimalValue "9999999999" = some 9999999999 ∧
    ¬ ((1025 : Int) ≤ 9999999999 ∧ (9999999999 : Int) ≤ 65535) ∧
    (process_p_option "9999999999" initOptions).exit = E_FAILURE ∧
    (process_p_option "9999999999" initOptions).err =
      ["process_p_option(): Unable to convert 'p_value' to number."] ∧
    "process_p_option(): Port number out of range." ∉
      (process_p_option "9999999999" initOptions).err := by
  decide

/-- Claim C6, amended: for decimal strings of at most 5 characters denoting
an integer within the signed 32-bit range, `-p` processing (with the flag
not yet set) succeeds for values in [1025, 65535], storing the original
text unchanged, and fails with the out-of-range diagnostic for in-int32
values outside [1025, 65535]; strings denoting integers beyond the 32-bit
range are instead rejected by the numeric conversion. -/
theorem C6_amended_port_value (s : String) (k : Int) (opts : options_t)
    (hflag : opts.p_flag = false)
    (hk : decimalValue s = some k)
    (hlo : -(2 ^ 31) ≤ k) (hhi : k ≤ 2 ^ 31 - 1)
    (hlen : s.length ≤ 5) :
    (1025 ≤ k → k ≤ 65535 → process_p_option s opts =
      ⟨E_SUCCESS, { opts with p_flag := true, p_value := s }, []⟩) ∧
    (k < 1025 ∨ 65535 < k → process_p_option s opts =
      ⟨E_FAILURE, opts, ["process_p_option(): Port number out of range."]⟩) := by
  have hs := str_to_int32_of_decimalValue hk hlo hhi
  have hstr : ¬ (MAX_PORT_SIZE < strnlen s MAX_PORT_SIZE) :=
    Nat.not_lt.mpr (Nat.min_le_right _ _)
  simp only [process_p_option, hflag, Bool.false_eq_true, if_false, hs,
    MAX_PORT_VALUE, MIN_PORT_VALUE]
  constructor
  · intro h1 h2
    rw [if_neg (by omega : ¬ ((65535 : Int) < k ∨ k < 1025)), if_neg hstr]
  · intro hout
    rw [if_pos (by omega : (65535 : Int) < k ∨ k < 1025)]

theorem C6_amended_port_value_witness :
    process_p_option "8080" initOptions =
      ⟨E_SUCCESS, { initOptions with p_flag := true, p_value := "8080" }, []⟩ :=
  (C6_amended_port_value "8080" 8080 initOptions rfl (by decide) (by decide) (by decide)
    (by decide)).1 (by decide) (by decide)

/-- Claim C7: a second occurrence of `-n` (or `-p`) after the option was
already set makes the scan fail immediately with the duplicate-flag
diagnostic, regardless of the value given (attached to the token or in the
following token), and leaves the record unchanged — in particular the
earlier value is never overwritten. -/
theorem C7_duplicate_option_fails (t v : String) (rest sk e : List String) (ec : Int)
    (u : Nat) (o : options_t) :
    (classifyTok t = .nOpt none → o.n_flag = true →
      scanLoop (t :: v :: rest) sk o e ec u =
        .exited E_FAILURE o
          (e ++ ["process_options(): '-n' flag already true.",
            "Unable to process 'n' option."]) (u + 2)) ∧
    (classifyTok t = .nOpt (some v) → o.n_flag = true →
      scanLoop (t :: rest) sk o e ec u =
        .exited E_FAILURE o
          (e ++ ["process_options(): '-n' flag already true.",
            "Unable to process 'n' option."]) (u + 1)) ∧
    (classifyTok t = .pOpt none → o.p_flag = true →
      scanLoop (t :: v :: rest) sk o e ec u =
        .exited E_FAILURE o
          (e ++ ["process_p_option(): '-p' flag already true.",
            "Unable to process 'p' option."]) (u + 2)) ∧
    (classifyTok t = .pOpt (some v) → o.p_flag = true →
      scanLoop (t :: rest) sk o e ec u =
        .exited E_FAILURE o
          (e ++ ["process_p_option(): '-p' flag already true.",
            "Unable to process 'p' option."]) (u + 1)) := by
  refine ⟨fun ht hf => ?_, fun ht hf => ?_, fun ht hf => ?_, fun ht hf => ?_⟩
  · rw [scanLoop_cons]
    simp [ht, process_n_option_dup hf, E_SUCCESS, E_FAILURE]
  · rw [scanLoop_cons]
    simp [ht, process_n_option_dup hf, E_SUCCESS, E_FAILURE]
  · rw [scanLoop_cons]
    simp [ht, process_p_option_dup hf, E_SUCCESS, E_FAILURE]
  · rw [scanLoop_cons]
    simp [ht, process_p_option_dup hf, E_SUCCESS, E_FAILURE]

theorem C7_duplicate_option_fails_witness :
    scanLoop ["-n", "8"] [] ⟨true, 4, false, ""⟩ [] E_FAILURE 0 =
      .exited E_FAILURE ⟨true, 4, false, ""⟩
        ["process_options(): '-n' flag already true.", "Unable to process 'n' option."] 2 :=
  (C7_duplicate_option_fails "-n" "8" [] [] [] E_FAILURE 0 ⟨true, 4, false, ""⟩).1
    (by decide) rfl

/-- Claim C8: if the scan completes and non-option tokens were left over
(the tokens glibc permuted behind the options), `process_options` fails and
the diagnostic output contains the `Invalid arguments encountered:` report
followed by every one of the leftover tokens. -/
theorem C8_extra_arguments_reported (argv : List String) (opts fin : options_t)
    (L e : List String) (u : Nat)
    (hargv : argv ≠ [])
    (hscan : scanLoop (argv.drop 1) [] opts [] E_FAILURE 0 = .finished fin L e u)
    (hL : L ≠ []) :
    (process_options argv opts).exit = E_FAILURE ∧
    "Invalid arguments encountered: " ∈ (process_options argv opts).err ∧
    ∀ tok ∈ L, tok ∈ (process_options argv opts).err := by
  have hne : argv.isEmpty = false := by
    cases argv
    · exact absurd rfl hargv
    · rfl
  have hLe : L.isEmpty = false := by
    cases L
    · exact absurd rfl hL
    · rfl
  have hres : process_options argv opts =
      mkEnd E_FAILURE fin
        ((e ++ ("Invalid arguments encountered: " :: L)) ++ ["Invalid arguments passed."])
        (1 + u) := by
    unfold process_options process_options_from
    simp only [hne, Bool.false_eq_true, if_false, hscan, hLe]
  rw [hres]
  refine ⟨rfl, ?_, ?_⟩
  · show "Invalid arguments encountered: " ∈
      (e ++ ("Invalid arguments encountered: " :: L)) ++ ["Invalid arguments passed."]
    exact List.mem_append_left _ (List.mem_append_right e (List.mem_cons_self _ _))
  · intro tok htok
    show tok ∈ (e ++ ("Invalid arguments encountered: " :: L)) ++ ["Invalid arguments passed."]
    exact List.mem_append_left _ (List.mem_append_right e (List.mem_cons_of_mem _ htok))

theorem C8_extra_arguments_reported_witness :
    (process_options ["netcalc", "-p", "8080", "extra"] initOptions).exit = E_FAILURE ∧
    "Invalid arguments encountered: " ∈
      (process_options ["netcalc", "-p", "8080", "extra"] initOptions).err ∧
    ∀ tok ∈ ["extra"], tok ∈
      (process_options ["netcalc", "-p", "8080", "extra"] initOptions).err :=
  C8_extra_arguments_reported ["netcalc", "-p", "8080", "extra"] initOptions
    ⟨false, 0, true, "8080"⟩ ["extra"] [] 2 (by decide) (by decide) (by decide)

/-- Claim C9: the scan is fail-fast: once a token (together with the value
it consumes, if any) triggers a failure or the explicit help request, the
loop's outcome no longer depends on the tokens that follow — they are never
examined and never stored.  (The missing-value failure can only occur at
the very end of the vector, where no tokens follow.) -/
theorem C9_fail_fast_absorbing (t v : String) (o : options_t) (sk e : List String)
    (ec : Int) (u : Nat) :
    (∀ last, classifyTok t = .help last →
      ∀ rest rest', scanLoop (t :: rest) sk o e ec u = scanLoop (t :: rest') sk o e ec u) ∧
    (∀ c last, classifyTok t = .unknown c last →
      ∀ rest rest', scanLoop (t :: rest) sk o e ec u = scanLoop (t :: rest') sk o e ec u) ∧
    (classifyTok t = .nOpt (some v) → (process_n_option v o).exit ≠ E_SUCCESS →
      ∀ rest rest', scanLoop (t :: rest) sk o e ec u = scanLoop (t :: rest') sk o e ec u) ∧
    (classifyTok t = .nOpt none → (process_n_option v o).exit ≠ E_SUCCESS →
      ∀ rest rest',
        scanLoop (t :: v :: rest) sk o e ec u = scanLoop (t :: v :: rest') sk o e ec u) ∧
    (classifyTok t = .pOpt (some v) → (process_p_option v o).exit ≠ E_SUCCESS →
      ∀ rest rest', scanLoop (t :: rest) sk o e ec u = scanLoop (t :: rest') sk o e ec u) ∧
    (classifyTok t = .pOpt none → (process_p_option v o).exit ≠ E_SUCCESS →
      ∀ rest rest',
        scanLoop (t :: v :: rest) sk o e ec u = scanLoop (t :: v :: rest') sk o e ec u) := by
  refine ⟨fun last ht rest rest' => ?_, fun c last ht rest rest' => ?_,
    fun ht hf rest rest' => ?_, fun ht hf rest rest' => ?_,
    fun ht hf rest rest' => ?_, fun ht hf rest rest' => ?_⟩
  · conv_lhs => rw [scanLoop_cons]
    conv_rhs => rw [scanLoop_cons]
    rw [ht]
  · conv_lhs => rw [scanLoop_cons]
    conv_rhs => rw [scanLoop_cons]
    rw [ht]
  · conv_lhs => rw [scanLoop_cons]
    conv_rhs => rw [scanLoop_cons]
    simp only [ht]
    rw [if_neg hf, if_neg hf]
  · conv_lhs => rw [scanLoop_cons]
    conv_rhs => rw [scanLoop_cons]
    simp only [ht]
    rw [if_neg hf, if_neg hf]
  · conv_lhs => rw [scanLoop_cons]
    conv_rhs => rw [scanLoop_cons]
    simp only [ht]
    rw [if_neg hf, if_neg hf]
  · conv_lhs => rw [scanLoop_cons]
    conv_rhs => rw [scanLoop_cons]
    simp only [ht]
    rw [if_neg hf, if_neg hf]

theorem C9_fail_fast_absorbing_witness :
    scanLoop ["-h", "ignored"] [] initOptions [] E_FAILURE 0 =
      scanLoop ["-h"] [] initOptions [] E_FAILURE 0 :=
  (C9_fail_fast_absorbing "-h" "" initOptions [] [] E_FAILURE 0).1 true (by decide)
    ["ignored"] []

/-- Claim C10: the length-check failure branch of `process_p_option` is
unreachable: `strnlen(s, MAX_PORT_SIZE)` is at most `MAX_PORT_SIZE` = 6 for
every string, so `MAX_PORT_SIZE < optarg_length` is false for all inputs
and the `Port string is too long` diagnostic can never be produced. -/
theorem C10_length_check_unreachable :
    ∀ (s : String) (o : options_t),
      ¬ (MAX_PORT_SIZE < strnlen s MAX_PORT_SIZE) ∧
      "process_p_option(): Port string is too long." ∉ (process_p_option s o).err := by
  intro s o
  have hstr : ¬ (MAX_PORT_SIZE < strnlen s MAX_PORT_SIZE) :=
    Nat.not_lt.mpr (Nat.min_le_right _ _)
  refine ⟨hstr, ?_⟩
  unfold process_p_option
  by_cases hp : o.p_flag = true
  · rw [if_pos hp]
    show "process_p_option(): Port string is too long." ∉
      ["process_p_option(): '-p' flag already true."]
    decide
  · rw [if_neg hp]
    cases hsi : str_to_int32 s with
    | none =>
      simp only [hsi]
      show "process_p_option(): Port string is too long." ∉
        ["process_p_option(): Unable to convert 'p_value' to number."]
      decide
    | some v =>
      simp only [hsi]
      by_cases hr : MAX_PORT_VALUE < v ∨ v < MIN_PORT_VALUE
      · rw [if_pos hr]
        show "process_p_option(): Port string is too long." ∉
          ["process_p_option(): Port number out of range."]
        decide
      · rw [if_neg hr, if_neg hstr]
        show "process_p_option(): Port string is too long." ∉ ([] : List String)
        decide
